import Mathlib

/-!
Verification of the FullStack-Todo-App frontend against its specification.

The development shallowly embeds the relevant TypeScript modules:
  * `Api`       — `src/frontend/services/api.ts` (the axios-based `ApiClient`)
  * `AuthApi`   — `src/frontend/services/authApi.ts` (fetch-based auth calls)
  * `TaskForm`  — `src/frontend/components/tasks/TaskForm.tsx`
  * `TasksPage` — `src/frontend/app/tasks/page.tsx`

HTTP calls are modelled by their awaited outcome (`Except`/`FetchResult`
values); browser-visible state (localStorage, cookies, navigation) is passed
explicitly as a `ClientState`.
-/

set_option maxHeartbeats 1000000

/-! ## Browser state

`localStorage` and the cookie jar are modelled as partial maps from names to
values.  Setting a cookie whose `expires` attribute lies in the past (as
`deleteCookie` in `authApi.ts` does) makes the browser drop it, so cookie
deletion is modelled as removal from the map. -/

/-- A cookie as written by `setCookie` in `authApi.ts`: the value together
with the attributes carried by the assigned cookie string
(`expires` — modelled by the number of days ahead —, `path`, `SameSite`,
`Secure`). -/
structure CookieRec where
  value : String
  expiryDays : Nat
  path : String
  sameSite : String
  secure : Bool
deriving Repr, DecidableEq

/-- The browser-visible client state: `localStorage` and the cookie jar. -/
structure ClientState where
  localStorage : String → Option String
  cookies : String → Option CookieRec

namespace Browser

/-- `localStorage.setItem(k, v)`. -/
def setItem (st : ClientState) (k v : String) : ClientState :=
  { st with localStorage := fun k2 => if k2 = k then some v else st.localStorage k2 }

/-- `localStorage.removeItem(k)`. -/
def removeItem (st : ClientState) (k : String) : ClientState :=
  { st with localStorage := fun k2 => if k2 = k then none else st.localStorage k2 }

end Browser

/-! ## The axios `ApiClient` (`src/frontend/services/api.ts`)

Each method awaits one HTTP call.  The awaited outcome is either the parsed
response body (`Except.ok`) or a thrown error (`Except.error`), covering
network failures, timeouts and non-2xx statuses, which axios surfaces as
rejections.  Each method's `try/catch` logs and then either re-throws or
substitutes a value; logging has no effect on the modelled state. -/

namespace Api

/-- An error thrown by an HTTP call (axios rejection or fetch/json failure). -/
inductive ApiError where
  | network
  | http (status : Nat) (detail : Option String)
  | jsonParse
deriving Repr, DecidableEq

/-- The `ApiResponse<T>` envelope `{success, data, popup, error}`. -/
structure ApiResponse (α : Type) where
  success : Bool
  data : α
  popup : Option String
  error : Option String
deriving Repr, DecidableEq

/-- The `Task` interface of `api.ts`. -/
structure Task where
  id : String
  title : String
  description : Option String
  is_completed : Bool
  created_at : String
  updated_at : String
  completed_at : Option String
  priority : String
  tags : List String
  due_date : Option String
  status : String
deriving Repr, DecidableEq

/-- The `HistoryEntry` interface of `api.ts`. -/
structure HistoryEntry where
  history_id : String
  task_id : Option String
  task_title : String
  action_type : String
  description : Option String
  timestamp : String
deriving Repr, DecidableEq

/-- The client-facing `PaginationMeta` interface of `api.ts`. -/
structure PaginationMeta where
  page : Nat
  limit : Nat
  total_count : Nat
  total_pages : Nat
  has_next : Bool
  has_prev : Bool
deriving Repr, DecidableEq

/-- The client-facing `PaginatedResponse<T>` interface of `api.ts`. -/
structure PaginatedResponse (α : Type) where
  success : Bool
  data : List α
  pagination : PaginationMeta
  popup : Option String
  error : Option String
deriving Repr, DecidableEq

/-- The backend pagination metadata nested in the `/history` response
(`current_page`, `page_size`, `total_count`, `total_pages`, `has_next`,
`has_prev`). -/
structure BackendPagination where
  current_page : Nat
  page_size : Nat
  total_count : Nat
  total_pages : Nat
  has_next : Bool
  has_prev : Bool
deriving Repr, DecidableEq

/-- The `data` payload of the `/history` response: `{items, pagination}`. -/
structure HistoryData where
  items : List HistoryEntry
  pagination : BackendPagination
deriving Repr, DecidableEq

/-- The `WeeklyStats` interface of `api.ts`. -/
structure WeeklyStats where
  tasks_created_this_week : Nat
  tasks_completed_this_week : Nat
  total_completed : Nat
  total_incomplete : Nat
  week_start : String
  week_end : String
  total_tasks : Nat
deriving Repr, DecidableEq

/-- The `HealthStatus` interface of `api.ts`. -/
structure HealthStatus where
  status : String
  service : String
  timestamp : Option String
deriving Repr, DecidableEq

/-- A notification record as used by the notifications endpoints. -/
structure Notification where
  id : String
  message : String
  read : Bool
deriving Repr, DecidableEq

/-- The body returned by `GET /notifications`:
`{notifications, unread_count, total_count}`. -/
structure NotificationsBody where
  notifications : List Notification
  unread_count : Nat
  total_count : Nat
deriving Repr, DecidableEq

/-- The `{count}` object of the unread-count and mark-all-read endpoints. -/
structure CountBody where
  count : Nat
deriving Repr, DecidableEq

/-- `getHealth`: on success returns the unwrapped `data`; on failure it
catches the error, logs, and returns the fallback
`{status: "down", service: "todo-app-backend"}` instead of re-throwing. -/
def getHealth (r : Except ApiError (ApiResponse HealthStatus)) :
    Except ApiError HealthStatus :=
  match r with
  | .ok resp => .ok resp.data
  | .error _ => .ok { status := "down", service := "todo-app-backend", timestamp := none }

/-- `getTasks`: returns `response.data.data || []`; logs and re-throws on
failure.  The `|| []` guard is modelled by an optional `data` field. -/
def getTasks (r : Except ApiError (ApiResponse (Option (List Task)))) :
    Except ApiError (List Task) :=
  match r with
  | .ok resp => .ok (resp.data.getD [])
  | .error e => .error e

/-- `getTask`: unwraps `data`; logs and re-throws on failure. -/
def getTask (r : Except ApiError (ApiResponse Task)) : Except ApiError Task :=
  match r with
  | .ok resp => .ok resp.data
  | .error e => .error e

/-- `createTask`: unwraps `data`; logs and re-throws on failure. -/
def createTask (r : Except ApiError (ApiResponse Task)) : Except ApiError Task :=
  match r with
  | .ok resp => .ok resp.data
  | .error e => .error e

/-- `updateTask`: unwraps `data`; logs and re-throws on failure. -/
def updateTask (r : Except ApiError (ApiResponse Task)) : Except ApiError Task :=
  match r with
  | .ok resp => .ok resp.data
  | .error e => .error e

/-- `completeTask`: unwraps `data`; logs and re-throws on failure. -/
def completeTask (r : Except ApiError (ApiResponse Task)) : Except ApiError Task :=
  match r with
  | .ok resp => .ok resp.data
  | .error e => .error e

/-- `incompleteTask`: unwraps `data`; logs and re-throws on failure. -/
def incompleteTask (r : Except ApiError (ApiResponse Task)) : Except ApiError Task :=
  match r with
  | .ok resp => .ok resp.data
  | .error e => .error e

/-- `deleteTask`: returns nothing on success; logs and re-throws on failure. -/
def deleteTask (r : Except ApiError (ApiResponse Unit)) : Except ApiError Unit :=
  match r with
  | .ok _ => .ok ()
  | .error e => .error e

/-- `getHistory`: on success rebuilds a `PaginatedResponse`, mapping the
backend pagination metadata (`current_page` ↦ `page`, `page_size` ↦ `limit`,
and `total_count`, `total_pages`, `has_next`, `has_prev` carried unchanged);
logs and re-throws on failure. -/
def getHistory (r : Except ApiError (ApiResponse HistoryData)) :
    Except ApiError (PaginatedResponse HistoryEntry) :=
  match r with
  | .ok resp =>
      .ok { success := resp.success
            data := resp.data.items
            pagination :=
              { page := resp.data.pagination.current_page
                limit := resp.data.pagination.page_size
                total_count := resp.data.pagination.total_count
                total_pages := resp.data.pagination.total_pages
                has_next := resp.data.pagination.has_next
                has_prev := resp.data.pagination.has_prev }
            popup := resp.popup
            error := resp.error }
  | .error e => .error e

/-- `deleteHistoryEntry`: returns nothing on success; logs and re-throws on
failure. -/
def deleteHistoryEntry (r : Except ApiError (ApiResponse Unit)) : Except ApiError Unit :=
  match r with
  | .ok _ => .ok ()
  | .error e => .error e

/-- `getWeeklyStats`: unwraps `data`; logs and re-throws on failure. -/
def getWeeklyStats (r : Except ApiError (ApiResponse WeeklyStats)) :
    Except ApiError WeeklyStats :=
  match r with
  | .ok resp => .ok resp.data
  | .error e => .error e

/-- `getNotifications`: returns `response.data` — the whole response body,
not the `data` field of an envelope; logs and re-throws on failure. -/
def getNotifications (r : Except ApiError NotificationsBody) :
    Except ApiError NotificationsBody :=
  match r with
  | .ok body => .ok body
  | .error e => .error e

/-- `markNotificationAsRead`: returns `response.data.data || response.data`
(the `data` field when present, otherwise the whole body); logs and re-throws
on failure. -/
def markNotificationAsRead (r : Except ApiError (ApiResponse (Option Notification))) :
    Except ApiError (Notification ⊕ ApiResponse (Option Notification)) :=
  match r with
  | .ok resp =>
      match resp.data with
      | some n => .ok (.inl n)
      | none => .ok (.inr resp)
  | .error e => .error e

/-- `markAllNotificationsAsRead`: unwraps `data`; logs and re-throws on
failure. -/
def markAllNotificationsAsRead (r : Except ApiError (ApiResponse CountBody)) :
    Except ApiError CountBody :=
  match r with
  | .ok resp => .ok resp.data
  | .error e => .error e

/-- `getUnreadCount`: returns `response.data.data.count`; logs and re-throws
on failure. -/
def getUnreadCount (r : Except ApiError (ApiResponse CountBody)) : Except ApiError Nat :=
  match r with
  | .ok resp => .ok resp.data.count
  | .error e => .error e

/-- The response interceptor's rejection handler: when the failed response
carries HTTP status 401 it removes `auth_token` and `user` from localStorage
and navigates to `/login` (returned as the navigation target); any other
failure leaves the state untouched.  The rejection is re-thrown either way. -/
def onResponseError (status : Option Nat) (st : ClientState) :
    ClientState × Option String :=
  if status = some 401 then
    (Browser.removeItem (Browser.removeItem st "auth_token") "user", some "/login")
  else
    (st, none)

end Api

/-! ## The fetch-based auth service (`src/frontend/services/authApi.ts`)

Each operation awaits a `fetch` call followed by `response.json()`.  The
awaited outcome is a `FetchResult`: the fetch itself may reject
(`netError`), the body may fail to parse (`jsonError`), or a response with
some HTTP status and parsed body is obtained (`resp`).  `response.ok` is
true exactly for 2xx statuses. -/

namespace AuthApi

/-- The outcome of `await fetch(...)` followed by `await response.json()`. -/
inductive FetchResult (α : Type) where
  | netError
  | jsonError (status : Nat)
  | resp (status : Nat) (body : α)
deriving Repr, DecidableEq

/-- `response.ok`: the HTTP status lies in the 2xx range. -/
def respOk (status : Nat) : Bool :=
  decide (200 ≤ status) && decide (status < 300)

/-- The `User` object returned by the auth endpoints. -/
structure User where
  id : String
  email : String
deriving Repr, DecidableEq

/-- The parsed body of a signup/login response: the fields the client reads
(`detail` on failure, `token` and `user` on success). -/
structure AuthBody where
  detail : Option String
  token : Option String
  user : User
deriving Repr, DecidableEq

/-- The parsed body of a logout response: the client reads only `detail`. -/
structure LogoutBody where
  detail : Option String
deriving Repr, DecidableEq

/-- The parsed body of a `GET /auth/me` response: `detail` on failure, and
on success the body itself is the `User`. -/
structure UserBody where
  detail : Option String
  user : User
deriving Repr, DecidableEq

/-- `JSON.stringify` of a `User`, as stored under the `user` key. -/
def stringifyUser (u : User) : String :=
  "\x7b\"id\":\"" ++ u.id ++ "\",\"email\":\"" ++ u.email ++ "\"\x7d"

/-- `setCookie(name, value, days)`: assigns a cookie string with the value,
an `expires` attribute `days` days ahead, `path=/`, `SameSite=Lax` and
`Secure`. -/
def setCookie (st : ClientState) (name value : String) (days : Nat := 30) :
    ClientState :=
  { st with cookies := fun n =>
      if n = name then
        some { value := value, expiryDays := days, path := "/",
               sameSite := "Lax", secure := true }
      else st.cookies n }

/-- `deleteCookie(name)`: assigns the cookie with an `expires` attribute in
the past, which makes the browser drop it. -/
def deleteCookie (st : ClientState) (name : String) : ClientState :=
  { st with cookies := fun n => if n = name then none else st.cookies n }

/-- `signup(email, password)`: throws on fetch/parse failure; on a non-ok
response throws `detail` (or the fallback message); on success with a token
writes the cookie (30 days) and the `auth_token`/`user` localStorage entries
and returns the body. -/
def signup (r : FetchResult AuthBody) (st : ClientState) :
    ClientState × Except String AuthBody :=
  match r with
  | .netError => (st, .error "network error")
  | .jsonError _ => (st, .error "json parse error")
  | .resp status body =>
      if respOk status then
        match body.token with
        | some t =>
            let st1 := setCookie st "auth_token" t 30
            let st2 := Browser.setItem st1 "auth_token" t
            let st3 := Browser.setItem st2 "user" (stringifyUser body.user)
            (st3, .ok body)
        | none => (st, .ok body)
      else
        (st, .error (body.detail.getD "Signup failed. Please try again."))

/-- `login(email, password)`: same shape as `signup`, with the login
fallback message. -/
def login (r : FetchResult AuthBody) (st : ClientState) :
    ClientState × Except String AuthBody :=
  match r with
  | .netError => (st, .error "network error")
  | .jsonError _ => (st, .error "json parse error")
  | .resp status body =>
      if respOk status then
        match body.token with
        | some t =>
            let st1 := setCookie st "auth_token" t 30
            let st2 := Browser.setItem st1 "auth_token" t
            let st3 := Browser.setItem st2 "user" (stringifyUser body.user)
            (st3, .ok body)
        | none => (st, .ok body)
      else
        (st, .error (body.detail.getD "Login failed. Please try again."))

/-- The storage clearing performed by `logout`'s `finally` block:
`deleteCookie('auth_token')`, then removal of the `auth_token` and `user`
localStorage entries. -/
def clearAuthStorage (st : ClientState) : ClientState :=
  Browser.removeItem (Browser.removeItem (deleteCookie st "auth_token") "auth_token") "user"

/-- `logout()`: the `try` block computes the result (a thrown error for a
fetch/parse failure or a non-ok response, the body otherwise); the `finally`
block then clears the cookie and localStorage regardless, before the result
is returned or the exception propagates. -/
def logout (r : FetchResult LogoutBody) (st : ClientState) :
    ClientState × Except String LogoutBody :=
  let result : Except String LogoutBody :=
    match r with
    | .netError => .error "network error"
    | .jsonError _ => .error "json parse error"
    | .resp status body =>
        if respOk status then .ok body
        else .error (body.detail.getD "Logout failed. Please try again.")
  (clearAuthStorage st, result)

/-- `getCurrentUser()`: throws on fetch/parse failure; on a non-ok response
(including HTTP 401) throws `detail` (or the fallback message); on success
returns the body as the `User`.  It performs no storage mutation and no
navigation: the state passes through unchanged and the navigation target is
always `none`. -/
def getCurrentUser (r : FetchResult UserBody) (st : ClientState) :
    ClientState × Option String × Except String User :=
  match r with
  | .netError => (st, none, .error "network error")
  | .jsonError _ => (st, none, .error "json parse error")
  | .resp status body =>
      if respOk status then (st, none, .ok body.user)
      else (st, none, .error (body.detail.getD "Session validation failed."))

/-- `isAuthenticated()`: awaits `getCurrentUser()` inside `try/catch`,
returning `true` on success and `false` on any thrown error. -/
def isAuthenticated (r : FetchResult UserBody) (st : ClientState) : Bool :=
  match (getCurrentUser r st).2.2 with
  | .ok _ => true
  | .error _ => false

end AuthApi

/-! ## String helpers

JavaScript's `String.prototype.includes` is substring containment; it is
modelled over the character lists of the strings. -/

/-- `isPrefixList q l`: `q` is a prefix of `l`. -/
def isPrefixList : List Char → List Char → Bool
  | [], _ => true
  | _ :: _, [] => false
  | a :: as, b :: bs => a = b && isPrefixList as bs

/-- `containsSub q l`: `q` occurs as a contiguous sublist of `l`. -/
def containsSub (q : List Char) : List Char → Bool
  | [] => isPrefixList q []
  | c :: rest => isPrefixList q (c :: rest) || containsSub q rest

/-- JavaScript `s.includes(sub)`. -/
def strIncludes (s sub : String) : Bool :=
  containsSub sub.data s.data

/-- The ASCII whitespace characters stripped by JavaScript
`String.prototype.trim` (Unicode space separators are not modelled). -/
def isJsWhitespace (c : Char) : Bool :=
  c = ' ' || c = '\t' || c = '\n' || c = '\r' || c = '\x0b' || c = '\x0c'

/-- JavaScript `s.trim()`: strips whitespace from both ends. -/
def jsTrim (s : String) : String :=
  ⟨((s.data.dropWhile isJsWhitespace).reverse.dropWhile isJsWhitespace).reverse⟩

/-- JavaScript `s.toLowerCase()` (character-wise ASCII lowering). -/
def jsToLower (s : String) : String :=
  ⟨s.data.map Char.toLower⟩

/-! ## The task form (`src/frontend/components/tasks/TaskForm.tsx`) -/

namespace TaskForm

/-- The standard tag categories offered by the form, as listed by the form's
help text (`Work, Personal, Shopping, Health, Finance, Learning, Urgent`). -/
def STANDARD_TAGS : List String :=
  ["Work", "Personal", "Shopping", "Health", "Finance", "Learning", "Urgent"]

/-- `validateForm`: computes the `newErrors` record.  The trimmed title must
be non-empty and at most 200 characters; the (untrimmed) description must be
at most 2000 characters.  The returned list is the set of error entries. -/
def validateForm (title description : String) : List (String × String) :=
  let trimmedTitle := jsTrim title
  let titleErrors :=
    if trimmedTitle = "" then [("title", "Title is required")]
    else if 200 < trimmedTitle.length then [("title", "Title must be 200 characters or less")]
    else []
  let descriptionErrors :=
    if 2000 < description.length then
      [("description", "Description must be 2000 characters or less")]
    else []
  titleErrors ++ descriptionErrors

/-- The task object handed to `onSubmit` by `handleSubmit`.  The `id`,
timestamps and auto-classified priority are produced by `crypto.randomUUID`,
`Date` and the `classifyPriority` library (outside this model) and are not
represented; the fields below are the ones the validated inputs determine. -/
structure SubmittedTask where
  title : String
  description : Option String
  status : String
  tags : List String
deriving Repr, DecidableEq

/-- `handleSubmit`: returns early (no `onSubmit` call, modelled as `none`)
when `validateForm` reports errors; otherwise calls `onSubmit` with the task
built from the trimmed title, the trimmed description (`undefined` when
empty), the existing status (or `NOT_STARTED`) and the selected tags. -/
def handleSubmit (existingStatus : Option String) (title description : String)
    (tags : List String) : Option SubmittedTask :=
  let errors := validateForm title description
  if errors.isEmpty then
    let trimmedTitle := jsTrim title
    let trimmedDescription := jsTrim description
    some { title := trimmedTitle
           description := if trimmedDescription = "" then none else some trimmedDescription
           status := existingStatus.getD "NOT_STARTED"
           tags := tags }
  else
    none

/-- Modelled from the spec: `validateSingleTag` comes from
`lib/skills/task-tagging`, which is not under `src/`.  Per the spec, tag
selection never exceeds 5 entries, duplicate tags are rejected, and tags are
drawn from the standard categories; an invalid addition yields error
messages. -/
def validateSingleTag (tags : List String) (tag : String) : Bool × List String :=
  if 5 ≤ tags.length then (false, ["Maximum of 5 tags allowed"])
  else if tag ∈ tags then (false, ["Tag already added"])
  else if tag ∉ STANDARD_TAGS then (false, ["Tag must be a standard category"])
  else (true, [])

/-- `handleAddTag`: validates the tag against the current selection; when
invalid it keeps the selection and sets the first error message, otherwise
it appends the tag and clears the tag error. -/
def handleAddTag (tags : List String) (tag : String) : List String × Option String :=
  let validation := validateSingleTag tags tag
  if validation.1 then (tags ++ [tag], none)
  else (tags, validation.2.head?)

/-- `handleRemoveTag`: removes every occurrence of the tag. -/
def handleRemoveTag (tags : List String) (tag : String) : List String :=
  tags.filter (fun t => t ≠ tag)

/-- The render condition of the tag input: it is offered only while fewer
than 5 tags are selected (`tags.length < 5 && ...`). -/
def tagInputRendered (tags : List String) : Bool :=
  decide (tags.length < 5)

/-- One user interaction with the tag controls. -/
inductive TagOp where
  | add (tag : String)
  | remove (tag : String)
deriving Repr, DecidableEq

/-- The tag list after one interaction. -/
def applyTagOp (tags : List String) : TagOp → List String
  | .add t => (handleAddTag tags t).1
  | .remove t => handleRemoveTag tags t

/-- The tag list after a sequence of interactions. -/
def applyTagOps (ops : List TagOp) (tags : List String) : List String :=
  ops.foldl applyTagOp tags

end TaskForm

/-! ## The tasks page (`src/frontend/app/tasks/page.tsx`)

The page composes three layers over the task list held by `useTasks`:
`useFilters(tasks)` produces `filteredTasks`, `useSort(filteredTasks)`
produces `sortedTasks`, and an inline `filter` applies the free-text search
to `sortedTasks`.  The `useFilters`/`useSort` hooks live outside `src/` and
are modelled from the spec; the search layer is embedded from the page
source. -/

namespace TasksPage

/-- The frontend `Task` shape (`types/task.types.ts`) as used by the page:
title, optional description, status and priority strings, tags, optional due
date and timestamps. -/
structure Task where
  id : String
  title : String
  description : Option String
  status : String
  priority : String
  tags : List String
  dueDate : Option String
  createdAt : String
  updatedAt : String
deriving Repr, DecidableEq

/-- Modelled from the spec: the filter state of the `useFilters` hook (not
under `src/`): independent `status`, `priority` and `tags` selections and a
due-date bucket.  An empty selection leaves the corresponding dimension
unfiltered. -/
structure FilterState where
  status : List String
  priority : List String
  tags : List String
  dueDate : String
deriving Repr, DecidableEq

/-- Modelled from the spec: a task passes the filter when it matches every
active dimension.  The non-`all` due-date buckets depend on the current
date, which the model abstracts to requiring a due date to be present. -/
def taskMatchesFilter (fs : FilterState) (t : Task) : Bool :=
  (fs.status.isEmpty || fs.status.contains t.status) &&
  (fs.priority.isEmpty || fs.priority.contains t.priority) &&
  (fs.tags.isEmpty || t.tags.any (fun tag => fs.tags.contains tag)) &&
  (fs.dueDate = "all" || t.dueDate.isSome)

/-- Modelled from the spec: `filteredTasks` as exposed by `useFilters`. -/
def filteredTasks (fs : FilterState) (tasks : List Task) : List Task :=
  tasks.filter (taskMatchesFilter fs)

/-- Modelled from the spec: the sort state of the `useSort` hook (not under
`src/`): a sort field and a direction. -/
structure SortState where
  field : String
  ascending : Bool
deriving Repr, DecidableEq

/-- Modelled from the spec: the sort key of a task for a given field. -/
def sortKey (field : String) (t : Task) : String :=
  if field = "title" then t.title
  else if field = "priority" then t.priority
  else if field = "dueDate" then (t.dueDate.getD "")
  else if field = "updatedAt" then t.updatedAt
  else t.createdAt

/-- Modelled from the spec: the comparison used by the sort, flipping with
the direction. -/
def sortLE (ss : SortState) (a b : Task) : Bool :=
  if ss.ascending then decide (sortKey ss.field a ≤ sortKey ss.field b)
  else decide (sortKey ss.field b ≤ sortKey ss.field a)

/-- Stable insertion of an element into a sorted list. -/
def insertSorted (le : Task → Task → Bool) (x : Task) : List Task → List Task
  | [] => [x]
  | y :: ys => if le x y then x :: y :: ys else y :: insertSorted le x ys

/-- Modelled from the spec: `sortedTasks` as exposed by `useSort` — a stable
sort of the filtered tasks by the selected field and direction. -/
def sortedTasks (ss : SortState) (tasks : List Task) : List Task :=
  match tasks with
  | [] => []
  | x :: xs => insertSorted (sortLE ss) x (sortedTasks ss xs)

/-- The search predicate of the page: a blank query keeps every task;
otherwise the lower-cased query must occur in the lower-cased title,
description or one of the tags. -/
def searchFilter (searchQuery : String) (task : Task) : Bool :=
  if jsTrim searchQuery = "" then true
  else
    let query := jsToLower searchQuery
    strIncludes (jsToLower task.title) query ||
    (match task.description with
     | some d => strIncludes (jsToLower d) query
     | none => false) ||
    task.tags.any (fun tag => strIncludes (jsToLower tag) query)

/-- `searchedTasks`: the inline search layer of the page. -/
def searchedTasks (searchQuery : String) (tasks : List Task) : List Task :=
  tasks.filter (searchFilter searchQuery)

/-- The task list the page hands to `TaskList`: filter, then sort, then
search, in that order. -/
def displayedTasks (fs : FilterState) (ss : SortState) (searchQuery : String)
    (tasks : List Task) : List Task :=
  let filtered := filteredTasks fs tasks
  let sorted := sortedTasks ss filtered
  searchedTasks searchQuery sorted

end TasksPage

/-! ## Concrete fixtures used by the theorems below -/

/-- Task A of the spec's composition example: title "Buy milk", COMPLETED. -/
def taskA : TasksPage.Task :=
  { id := "a", title := "Buy milk", description := none, status := "COMPLETED",
    priority := "LOW", tags := [], dueDate := none,
    createdAt := "2024-01-01", updatedAt := "2024-01-01" }

/-- Task B of the spec's composition example: title "Write report",
NOT_STARTED. -/
def taskB : TasksPage.Task :=
  { id := "b", title := "Write report", description := none, status := "NOT_STARTED",
    priority := "LOW", tags := [], dueDate := none,
    createdAt := "2024-01-02", updatedAt := "2024-01-02" }

/-- The filter state selecting `status = NOT_STARTED` only. -/
def notStartedFilter : TasksPage.FilterState :=
  { status := ["NOT_STARTED"], priority := [], tags := [], dueDate := "all" }

/-- The default sort state (by creation date, ascending). -/
def defaultSort : TasksPage.SortState :=
  { field := "createdAt", ascending := true }

/-- The `/history` response body of the spec's pagination example. -/
def historyResp25 : Api.ApiResponse Api.HistoryData :=
  { success := true
    data := { items := [],
              pagination := { current_page := 2, page_size := 10, total_count := 25,
                              total_pages := 3, has_next := true, has_prev := true } }
    popup := none
    error := none }

/-- A client state holding stored credentials. -/
def st0 : ClientState :=
  { localStorage := fun k =>
      if k = "auth_token" then some "tok"
      else if k = "user" then some "stored-user"
      else none
    cookies := fun _ => none }

/-- An empty client state. -/
def stEmpty : ClientState :=
  { localStorage := fun _ => none, cookies := fun _ => none }

/-- The parsed body of a 401 `GET /auth/me` response. -/
def me401 : AuthApi.UserBody :=
  { detail := some "Not authenticated", user := { id := "", email := "" } }

/-- A successful auth response body carrying a token. -/
def authBodyW : AuthApi.AuthBody :=
  { detail := none, token := some "tok123",
    user := { id := "u1", email := "u1@example.com" } }

/-! ## Shared helper lemmas -/

lemma handleAddTag_keeps_invariant (tags : List String) (tag : String)
    (h5 : tags.length ≤ 5) (hn : tags.Nodup) :
    (TaskForm.handleAddTag tags tag).1.length ≤ 5 ∧ (TaskForm.handleAddTag tags tag).1.Nodup := by
  unfold TaskForm.handleAddTag TaskForm.validateSingleTag
  by_cases c1 : 5 ≤ tags.length
  · simp [c1, h5, hn]
  · by_cases c2 : tag ∈ tags
    · simp [c1, c2, h5, hn]
    · by_cases c3 : tag ∈ TaskForm.STANDARD_TAGS
      · simp [c1, c2, c3]
        refine ⟨by omega, ?_⟩
        rw [List.nodup_append]
        exact ⟨hn, List.nodup_singleton tag, by
          intro a ha hb
          simp at hb
          exact c2 (hb ▸ ha)⟩
      · simp [c1, c2, c3, h5, hn]

lemma handleRemoveTag_keeps_invariant (tags : List String) (tag : String)
    (h5 : tags.length ≤ 5) (hn : tags.Nodup) :
    (TaskForm.handleRemoveTag tags tag).length ≤ 5 ∧ (TaskForm.handleRemoveTag tags tag).Nodup := by
  constructor
  · exact le_trans (List.length_filter_le _ _) h5
  · exact hn.filter _

lemma applyTagOp_keeps_invariant (tags : List String) (op : TaskForm.TagOp)
    (h : tags.length ≤ 5 ∧ tags.Nodup) :
    (TaskForm.applyTagOp tags op).length ≤ 5 ∧ (TaskForm.applyTagOp tags op).Nodup := by
  cases op with
  | add t => exact handleAddTag_keeps_invariant tags t h.1 h.2
  | remove t => exact handleRemoveTag_keeps_invariant tags t h.1 h.2

lemma applyTagOps_keeps_invariant (ops : List TaskForm.TagOp) :
    ∀ tags : List String, tags.length ≤ 5 ∧ tags.Nodup →
      (TaskForm.applyTagOps ops tags).length ≤ 5 ∧ (TaskForm.applyTagOps ops tags).Nodup := by
  induction ops with
  | nil => intro tags h; simpa [TaskForm.applyTagOps] using h
  | cons op rest ih =>
      intro tags h
      have hstep := applyTagOp_keeps_invariant tags op h
      simpa [TaskForm.applyTagOps] using ih _ hstep

/-! ## Claim theorems -/

/-- C1: for every backend `/history` response, `getHistory` exposes a
pagination object with `page = current_page`, `limit = page_size`, and
`total_count`, `total_pages`, `has_next`, `has_prev` carried over unchanged;
in particular the backend metadata
`{current_page: 2, page_size: 10, total_count: 25, total_pages: 3,
has_next: true, has_prev: true}` maps to
`{page: 2, limit: 10, total_count: 25, total_pages: 3, has_next: true,
has_prev: true}`. -/
theorem getHistory_pagination_mapping :
    (∀ resp : Api.ApiResponse Api.HistoryData, ∃ pr,
       Api.getHistory (.ok resp) = .ok pr ∧
       pr.pagination.page = resp.data.pagination.current_page ∧
       pr.pagination.limit = resp.data.pagination.page_size ∧
       pr.pagination.total_count = resp.data.pagination.total_count ∧
       pr.pagination.total_pages = resp.data.pagination.total_pages ∧
       pr.pagination.has_next = resp.data.pagination.has_next ∧
       pr.pagination.has_prev = resp.data.pagination.has_prev) ∧
    (∃ pr, Api.getHistory (.ok historyResp25) = .ok pr ∧
       pr.pagination = { page := 2, limit := 10, total_count := 25,
                         total_pages := 3, has_next := true, has_prev := true }) := by
  constructor
  · intro resp
    exact ⟨_, rfl, rfl, rfl, rfl, rfl, rfl, rfl⟩
  · exact ⟨_, rfl, rfl⟩

/-- C2: for every outcome of the remote `/auth/logout` call — success,
non-ok response, network error or JSON parse error — `logout()` deletes the
`auth_token` cookie and removes the `auth_token` and `user` localStorage
entries before returning or propagating its exception. -/
theorem logout_always_clears_storage
    (r : AuthApi.FetchResult AuthApi.LogoutBody) (st : ClientState) :
    (AuthApi.logout r st).1.cookies "auth_token" = none ∧
    (AuthApi.logout r st).1.localStorage "auth_token" = none ∧
    (AuthApi.logout r st).1.localStorage "user" = none := by
  have hau : ("auth_token" : String) ≠ "user" := by decide
  refine ⟨?_, ?_, ?_⟩ <;>
    simp [AuthApi.logout, AuthApi.clearAuthStorage, AuthApi.deleteCookie,
          Browser.removeItem, hau]

/-- C3 counterexample: `getCurrentUser` receives an HTTP 401 response
(`{detail: "Not authenticated"}`) while credentials are stored; it throws,
but the localStorage entries survive and no navigation to `/login` happens —
refuting the claim that every API call receiving a 401 clears storage and
redirects. -/
theorem getCurrentUser_401_keeps_storage :
    (AuthApi.getCurrentUser (.resp 401 me401) st0).1.localStorage "auth_token" = some "tok" ∧
    (AuthApi.getCurrentUser (.resp 401 me401) st0).1.localStorage "user" = some "stored-user" ∧
    (AuthApi.getCurrentUser (.resp 401 me401) st0).2.1 = none ∧
    (AuthApi.getCurrentUser (.resp 401 me401) st0).2.2 = .error "Not authenticated" :=
  ⟨by decide, by decide, rfl, rfl⟩

/-- C3 (amended): every API call made through the axios `ApiClient` that
fails with HTTP 401 triggers the response interceptor, which removes the
`auth_token` and `user` localStorage entries and navigates to `/login`;
the fetch-based auth-service calls do not pass through this interceptor. -/
theorem interceptor_401_clears_and_redirects (st : ClientState) :
    (Api.onResponseError (some 401) st).1.localStorage "auth_token" = none ∧
    (Api.onResponseError (some 401) st).1.localStorage "user" = none ∧
    (Api.onResponseError (some 401) st).2 = some "/login" := by
  have hau : ("auth_token" : String) ≠ "user" := by decide
  refine ⟨?_, ?_, ?_⟩ <;>
    simp [Api.onResponseError, Browser.removeItem, hau]

/-- C4: the task list shown on the tasks page applies the filter first, then
the sort, then the free-text search, in that order; with tasks A
("Buy milk", COMPLETED) and B ("Write report", NOT_STARTED), filtering by
`status = NOT_STARTED` and then searching "report" yields exactly `[B]`. -/
theorem tasks_pipeline_order_and_example :
    (∀ (fs : TasksPage.FilterState) (ss : TasksPage.SortState) (q : String)
       (ts : List TasksPage.Task),
       TasksPage.displayedTasks fs ss q ts =
         TasksPage.searchedTasks q (TasksPage.sortedTasks ss (TasksPage.filteredTasks fs ts))) ∧
    TasksPage.filteredTasks notStartedFilter [taskA, taskB] = [taskB] ∧
    TasksPage.displayedTasks notStartedFilter defaultSort "report" [taskA, taskB] = [taskB] := by
  refine ⟨fun fs ss q ts => rfl, by decide, by decide⟩

/-- C5: the task form rejects submission (no `onSubmit` call and an error
recorded) exactly when the trimmed title is empty, the trimmed title exceeds
200 characters, or the description exceeds 2000 characters; otherwise the
form passes validation and submits. -/
theorem taskForm_validation_exact (st : Option String) (title description : String)
    (tags : List String) :
    (TaskForm.handleSubmit st title description tags = none ↔
       (jsTrim title = "" ∨ 200 < (jsTrim title).length ∨ 2000 < description.length)) ∧
    (TaskForm.handleSubmit st title description tags = none ↔
       TaskForm.validateForm title description ≠ []) := by
  by_cases h1 : jsTrim title = "" <;>
    by_cases h2 : 200 < (jsTrim title).length <;>
      by_cases h3 : 2000 < description.length <;>
        simp [TaskForm.handleSubmit, TaskForm.validateForm, h1, h2, h3]

/-- C6: across every sequence of tag add/remove interactions starting from
an empty selection, the tag list never exceeds 5 entries and never contains
a duplicate; adding an already-present tag or adding to a full selection is
rejected with an error, and the tag input is not rendered once 5 tags are
selected. -/
theorem tag_selection_invariant :
    (∀ ops : List TaskForm.TagOp,
       (TaskForm.applyTagOps ops []).length ≤ 5 ∧ (TaskForm.applyTagOps ops []).Nodup) ∧
    (∀ (tags : List String) (tag : String), tag ∈ tags →
       (TaskForm.handleAddTag tags tag).1 = tags ∧
       (TaskForm.handleAddTag tags tag).2.isSome = true) ∧
    (∀ (tags : List String) (tag : String), 5 ≤ tags.length →
       (TaskForm.handleAddTag tags tag).1 = tags ∧
       (TaskForm.handleAddTag tags tag).2.isSome = true) ∧
    (∀ tags : List String, 5 ≤ tags.length → TaskForm.tagInputRendered tags = false) := by
  refine ⟨?_, ?_, ?_, ?_⟩
  · intro ops
    exact applyTagOps_keeps_invariant ops [] ⟨by simp, List.nodup_nil⟩
  · intro tags tag h
    by_cases c1 : 5 ≤ tags.length <;>
      simp [TaskForm.handleAddTag, TaskForm.validateSingleTag, c1, h]
  · intro tags tag h5
    simp [TaskForm.handleAddTag, TaskForm.validateSingleTag, h5]
  · intro tags h
    simp [TaskForm.tagInputRendered]
    omega

/-- C6 witness: the invariant theorem applied at concrete inputs — a
duplicate add is rejected, the input is hidden at 5 tags, and a concrete
interaction sequence keeps the bound. -/
theorem tag_selection_invariant_witness :
    ((TaskForm.handleAddTag ["Work"] "Work").1 = ["Work"]) ∧
    (TaskForm.tagInputRendered ["Work", "Personal", "Shopping", "Health", "Finance"] = false) ∧
    (TaskForm.applyTagOps [TaskForm.TagOp.add "Work", TaskForm.TagOp.add "Work"] []).length ≤ 5 :=
  ⟨(tag_selection_invariant.2.1 ["Work"] "Work" (by decide)).1,
   tag_selection_invariant.2.2.2 _ (by decide),
   (tag_selection_invariant.1 _).1⟩

/-- C7 counterexample: `getHealth` does not re-throw a failing call — on a
network error it swallows the failure and returns the fallback
`{status: "down", service: "todo-app-backend"}`, refuting the claim that no
`ApiClient` method swallows failures or substitutes a fallback value. -/
theorem getHealth_fallback_on_error :
    Api.getHealth (.error .network) =
      .ok { status := "down", service := "todo-app-backend", timestamp := none } := rfl

/-- C7 (amended): every `ApiClient` method except `getHealth` logs a failing
call and re-throws it unchanged; `getHealth` catches the failure and returns
the fallback health status instead.  On success, the task, history-deletion,
stats, mark-all-read and unread-count methods return the `data` field of the
envelope (`getTasks` substituting `[]` for a missing list), while
`getNotifications` returns the response body unchanged. -/
theorem apiClient_error_propagation :
    (∀ e, Api.getTasks (.error e) = .error e) ∧
    (∀ e, Api.getTask (.error e) = .error e) ∧
    (∀ e, Api.createTask (.error e) = .error e) ∧
    (∀ e, Api.updateTask (.error e) = .error e) ∧
    (∀ e, Api.completeTask (.error e) = .error e) ∧
    (∀ e, Api.incompleteTask (.error e) = .error e) ∧
    (∀ e, Api.deleteTask (.error e) = .error e) ∧
    (∀ e, Api.getHistory (.error e) = .error e) ∧
    (∀ e, Api.deleteHistoryEntry (.error e) = .error e) ∧
    (∀ e, Api.getWeeklyStats (.error e) = .error e) ∧
    (∀ e, Api.getNotifications (.error e) = .error e) ∧
    (∀ e, Api.markNotificationAsRead (.error e) = .error e) ∧
    (∀ e, Api.markAllNotificationsAsRead (.error e) = .error e) ∧
    (∀ e, Api.getUnreadCount (.error e) = .error e) ∧
    (∀ e, Api.getHealth (.error e) =
       .ok { status := "down", service := "todo-app-backend", timestamp := none }) ∧
    (∀ resp, Api.getTask (.ok resp) = .ok resp.data) ∧
    (∀ resp, Api.createTask (.ok resp) = .ok resp.data) ∧
    (∀ resp, Api.updateTask (.ok resp) = .ok resp.data) ∧
    (∀ resp, Api.completeTask (.ok resp) = .ok resp.data) ∧
    (∀ resp, Api.incompleteTask (.ok resp) = .ok resp.data) ∧
    (∀ resp, Api.getWeeklyStats (.ok resp) = .ok resp.data) ∧
    (∀ resp, Api.markAllNotificationsAsRead (.ok resp) = .ok resp.data) ∧
    (∀ resp, Api.getUnreadCount (.ok resp) = .ok resp.data.count) ∧
    (∀ resp, Api.getTasks (.ok resp) = .ok (resp.data.getD [])) ∧
    (∀ resp, Api.getHealth (.ok resp) = .ok resp.data) ∧
    (∀ body, Api.getNotifications (.ok body) = .ok body) :=
  ⟨fun _ => rfl, fun _ => rfl, fun _ => rfl, fun _ => rfl, fun _ => rfl,
   fun _ => rfl, fun _ => rfl, fun _ => rfl, fun _ => rfl, fun _ => rfl,
   fun _ => rfl, fun _ => rfl, fun _ => rfl, fun _ => rfl, fun _ => rfl,
   fun _ => rfl, fun _ => rfl, fun _ => rfl, fun _ => rfl, fun _ => rfl,
   fun _ => rfl, fun _ => rfl, fun _ => rfl, fun _ => rfl, fun _ => rfl,
   fun _ => rfl⟩

/-- C8: every successful login or signup response carrying a token writes
the token to the `auth_token` cookie — whose attribute string carries a
30-day expiry, `path=/`, `SameSite=Lax` and `Secure` — and to localStorage
under `auth_token`, with the stringified user object under `user`. -/
theorem auth_token_persistence (st : ClientState) (status : Nat)
    (body : AuthApi.AuthBody) (t : String)
    (hok : AuthApi.respOk status = true) (ht : body.token = some t) :
    ((AuthApi.login (.resp status body) st).1.cookies "auth_token" =
       some { value := t, expiryDays := 30, path := "/", sameSite := "Lax", secure := true } ∧
     (AuthApi.login (.resp status body) st).1.localStorage "auth_token" = some t ∧
     (AuthApi.login (.resp status body) st).1.localStorage "user" =
       some (AuthApi.stringifyUser body.user)) ∧
    ((AuthApi.signup (.resp status body) st).1.cookies "auth_token" =
       some { value := t, expiryDays := 30, path := "/", sameSite := "Lax", secure := true } ∧
     (AuthApi.signup (.resp status body) st).1.localStorage "auth_token" = some t ∧
     (AuthApi.signup (.resp status body) st).1.localStorage "user" =
       some (AuthApi.stringifyUser body.user)) := by
  have hau : ("auth_token" : String) ≠ "user" := by decide
  refine ⟨⟨?_, ?_, ?_⟩, ⟨?_, ?_, ?_⟩⟩ <;>
    simp [AuthApi.login, AuthApi.signup, hok, ht, AuthApi.setCookie,
          Browser.setItem, hau]

/-- C8 witness: the persistence theorem applied to a concrete 200 response
carrying token `tok123`. -/
theorem auth_token_persistence_witness :
    AuthApi.respOk 200 = true ∧ authBodyW.token = some "tok123" ∧
    (AuthApi.login (.resp 200 authBodyW) stEmpty).1.cookies "auth_token" =
      some { value := "tok123", expiryDays := 30, path := "/", sameSite := "Lax",
             secure := true } ∧
    (AuthApi.login (.resp 200 authBodyW) stEmpty).1.localStorage "auth_token" =
      some "tok123" :=
  ⟨by decide, rfl,
   (auth_token_persistence stEmpty 200 authBodyW "tok123" (by decide) rfl).1.1,
   (auth_token_persistence stEmpty 200 authBodyW "tok123" (by decide) rfl).1.2.1⟩

/-- C9: `isAuthenticated()` never throws — for every outcome of the
underlying `getCurrentUser()` call it returns a boolean, `true` exactly when
`getCurrentUser()` resolves without error and `false` for every thrown
error. -/
theorem isAuthenticated_total (r : AuthApi.FetchResult AuthApi.UserBody)
    (st : ClientState) :
    (AuthApi.isAuthenticated r st = true ∨ AuthApi.isAuthenticated r st = false) ∧
    (AuthApi.isAuthenticated r st = true ↔
       ∃ u, (AuthApi.getCurrentUser r st).2.2 = .ok u) ∧
    (AuthApi.isAuthenticated r st = false ↔
       ∃ e, (AuthApi.getCurrentUser r st).2.2 = .error e) := by
  rcases hg : (AuthApi.getCurrentUser r st).2.2 with e | u <;>
    simp [AuthApi.isAuthenticated, hg]

/-- C10: for every task list and every search query consisting only of
whitespace (including the empty string), the search step of the tasks page
is the identity on the filtered-and-sorted list. -/
theorem blank_search_is_identity (ts : List TasksPage.Task) (q : String)
    (h : jsTrim q = "") :
    TasksPage.searchedTasks q ts = ts := by
  unfold TasksPage.searchedTasks
  induction ts with
  | nil => rfl
  | cons t rest ih =>
      rw [List.filter_cons]
      simp only [TasksPage.searchFilter, h, if_pos]
      rw [ih]

/-- C10 witness: the identity theorem applied at the whitespace query
`"  "` and the singleton list `[taskB]`. -/
theorem blank_search_is_identity_witness :
    jsTrim "  " = "" ∧ TasksPage.searchedTasks "  " [taskB] = [taskB] :=
  ⟨by decide, blank_search_is_identity [taskB] "  " (by decide)⟩
